import Mathlib

/-!
Verification development for the loan-application pipeline
(`loan-api/main.py`, `approver/main.py`, `admin-dashboard/main.py`).

The Python services are shallowly embedded: JSON dictionaries become
association lists over a small `Value` type, the Redis store becomes a
record of association lists (the `user:`/`session:`/`loan:` key
namespaces become the three fields), side effects (Kinesis puts, Redis
publishes, outbound HTTP posts) become explicit events returned by the
embedded functions, and each fallible external call is parameterised by
its outcome.
-/

/-- A JSON scalar value as it appears in the services' dictionaries.
Composite JSON values never flow through the code paths modelled here. -/
inductive Value where
  | str (s : String)
  | num (n : Int)
  | null
deriving DecidableEq, Repr

/-- Python truthiness of a `Value` (`if loan_id:`, `if opted and user_id:`). -/
def Value.truthy : Value → Bool
  | .str s => s ≠ ""
  | .num n => n ≠ 0
  | .null => false

/-- Python `str()` of a `Value`, as used by f-strings and `str(loan_id)`. -/
def Value.toStr : Value → String
  | .str s => s
  | .num n => toString n
  | .null => "None"

/-- A Python dict decoded from JSON: an association list with unique keys. -/
abbrev Msg := List (String × Value)

/-- `d.get(k)` / `d[k]` on an association list: first binding wins. -/
def dictGet {β : Type} : List (String × β) → String → Option β
  | [], _ => none
  | (k', v') :: rest, k => if k' = k then some v' else dictGet rest k

/-- `d[k] = v`: replace the binding for `k` in place, or append it. -/
def dictSet {β : Type} : List (String × β) → String → β → List (String × β)
  | [], k, v => [(k, v)]
  | (k', v') :: rest, k, v =>
      if k' = k then (k, v) :: rest else (k', v') :: dictSet rest k v

/-- `d.pop(k, None)`: remove the binding for `k` (no error when absent). -/
def dictPop {β : Type} : List (String × β) → String → List (String × β)
  | [], _ => []
  | (k', v') :: rest, k =>
      if k' = k then dictPop rest k else (k', v') :: dictPop rest k

/-- Truthiness of a `d.get(k)` result (`None` and falsy values both fail). -/
def optTruthy : Option Value → Bool
  | none => false
  | some v => v.truthy

/-- Python `a or b` on two `d.get` results. -/
def pyOr (a b : Option Value) : Option Value :=
  if optTruthy a then a else b

/-- Python `a or d` with a constant default (`name or ""`, `loan_amount or 0`). -/
def pyOrV (a : Option Value) (d : Value) : Value :=
  match a with
  | none => d
  | some v => if v.truthy then v else d

/-- Python `x is not None` on a `d.get(k)` result: the key may be absent or
bound to JSON `null`; both read back as Python `None`. -/
def isNotNone : Option Value → Bool
  | none => false
  | some .null => false
  | some _ => true

/-- Default stream name from `LOAN_SUBMITTED_STREAM = os.getenv(..., "loan_submitted")`. -/
def LOAN_SUBMITTED_STREAM : String := "loan_submitted"

/-- Default stream name from `LOAN_STATUS_STREAM = os.getenv(..., "loan_status")`. -/
def LOAN_STATUS_STREAM : String := "loan_status"

/-- One Kinesis `put_record` call: `put_record(stream, payload, partition_key)`
in both services. -/
structure PutEvent where
  stream : String
  payload : Msg
  partitionKey : String
deriving DecidableEq, Repr

/-! ## Shard consumer loop

`consume_status_stream` (loan-api, lines 69–102) and `consume_requests`
(approver, lines 51–84) share one loop body verbatim; it is embedded once,
parameterised by the handler's message type `μ`.  A shard iterator is the
string Kinesis returns; a polled record is modelled as the result of
`json.loads(record["Data"])` — `some m` when it decodes, `none` when
`json.loads` raises (that record is skipped by `continue`). -/

/-- Outcome of one `get_records(ShardIterator=it, Limit=25)` call:
either a `botocore` `ClientError` carrying an error code, or a response
with its `Records` and optional `NextShardIterator`. -/
inductive GetRecordsOutcome (μ : Type) where
  | clientError (code : String)
  | ok (records : List (Option μ)) (nextShardIterator : Option String)
deriving DecidableEq, Repr

/-- The error codes tested by `if code in {"ExpiredIteratorException",
"ProvisionedThroughputExceededException"}`. -/
def throttleCodes : List String :=
  ["ExpiredIteratorException", "ProvisionedThroughputExceededException"]

/-- An observable event of the consumer loop body: a handler invocation
(`await handle_status_message(...)` / `await auto_approve(...)`) or the
collection of a `NextShardIterator` into `next_iterators`. -/
inductive LoopEv (μ : Type) where
  | handle (m : μ)
  | advance (it : String)
deriving DecidableEq, Repr

/-- The per-iterator body of the loop: on a `ClientError` both the
throttle/expiry branch and the generic branch `continue` (the latter also
logs a warning), contributing nothing; on success the handler runs once
per decodable record in order, then `NextShardIterator` (if present) is
appended to `next_iterators`. -/
def pollShard {μ : Type} (poll : String → GetRecordsOutcome μ) (it : String) :
    List (LoopEv μ) :=
  match poll it with
  | .clientError code =>
      if code ∈ throttleCodes then [] else []
  | .ok records nextIt =>
      (records.filterMap id).map .handle ++ nextIt.toList.map .advance

/-- One pass of `for iterator in iterators:` over the current cursors. -/
def pollCycle {μ : Type} (poll : String → GetRecordsOutcome μ) :
    List String → List (LoopEv μ)
  | [] => []
  | it :: rest => pollShard poll it ++ pollCycle poll rest

/-- The `next_iterators` list collected by a cycle. -/
def nextIterators {μ : Type} : List (LoopEv μ) → List String
  | [] => []
  | .advance it :: rest => it :: nextIterators rest
  | .handle _ :: rest => nextIterators rest

/-- The messages a cycle delivered to the handler, in order. -/
def handledMsgs {μ : Type} : List (LoopEv μ) → List μ
  | [] => []
  | .handle m :: rest => m :: handledMsgs rest
  | .advance _ :: rest => handledMsgs rest

/-- One iteration of the outer `while not stop_event.is_set():` loop, given
the iterator list it would obtain from re-discovery (`get_shard_iterators`):
an empty cursor list sleeps and re-discovers without polling; otherwise the
cycle runs and `iterators = next_iterators`. -/
def loopStep {μ : Type} (discover : List String)
    (poll : String → GetRecordsOutcome μ) (its : List String) :
    List μ × List String :=
  if its.isEmpty then ([], discover)
  else
    let evs := pollCycle poll its
    (handledMsgs evs, nextIterators evs)

example : pollShard (fun _ => GetRecordsOutcome.ok [some "a", none, some "b"] (some "n"))
    "it" = [.handle "a", .handle "b", .advance "n"] := by decide

example : loopStep ["d"] (fun _ => GetRecordsOutcome.clientError
    "ProvisionedThroughputExceededException" (μ := String)) ["x", "y"] = ([], []) := by decide

/-! ## Decision Service (`approver/main.py`) -/

/-- `auto_approve` (approver, lines 87–100) on a dict payload (the branch a
well-formed submission-request event takes): read `payload.get("id")`; when
truthy, publish `{"id": loan_id, "status": "approved"}` on the status stream
with partition key `str(loan_id)`; otherwise do nothing.  The result is the
list of `put_record` calls performed. -/
def auto_approve (payload : Msg) : List PutEvent :=
  match dictGet payload "id" with
  | none => []
  | some loan_id =>
      if loan_id.truthy then
        [{ stream := LOAN_STATUS_STREAM,
           payload := [("id", loan_id), ("status", Value.str "approved")],
           partitionKey := loan_id.toStr }]
      else []

/-- The handler loop of `consume_requests` applied to a batch of delivered
messages: `for record in ...: await auto_approve(message)`, collecting every
`put_record` in order.  Re-delivery of an event is modelled by the event
appearing twice in the batch. -/
def consumeBatch : List Msg → List PutEvent
  | [] => []
  | m :: rest => auto_approve m ++ consumeBatch rest

/-! ## Redis store

The services keep three kinds of Redis keys: `user:{user_id}`,
`session:{token}` and `loan:{loan_id}`.  The prefixes partition the key
space, so the store is modelled as three association lists indexed by the
suffix.  JSON round-tripping (`json.dumps`/`json.loads`) is the identity on
these structured values.  Redis expiry deletes a key, so an expired session
or loan snapshot is simply absent from its list. -/

/-- A `session:{token}` entry: `redis.set(f"session:{token}", user_id, ex=3600)`. -/
structure SessionRec where
  user_id : String
  ttl : Nat
deriving DecidableEq, Repr

/-- The Redis state visible to `loan-api/main.py`. -/
structure Store where
  users : List (String × Msg)
  sessions : List (String × SessionRec)
  loans : List (String × Msg)
deriving DecidableEq, Repr

/-! ## Status Notifier (`loan-api/main.py`, `handle_status_message`) -/

/-- An observable action of `handle_status_message`: the Redis pub/sub
`publish(channel, message)` fan-out, or the outbound
`POST http://admin-dashboard:8000/opt-by-id` with its form fields. -/
inductive NotifierEv where
  | publishB (channel : String) (payload : Msg)
  | adminPost (form : Msg)
deriving DecidableEq, Repr

/-- `handle_status_message` (loan-api, lines 105–136).  A message without an
`"id"` key returns at once (the `isinstance` guard is vacuous here because
`Msg` is already a dict).  Otherwise the fan-out publish on
`loan_status:{id}` is performed first; then, only for `"approved"` statuses,
the cached snapshot `loan:{id}` is read and — when it carries a truthy
`loan_type` and a truthy `user_id` (or `UserID`) — the admin webhook is
posted.  Every failure inside the enrichment block is caught and logged, so
the function's only unconditional action is the initial publish. -/
def handle_status_message (st : Store) (message : Msg) : List NotifierEv :=
  match dictGet message "id" with
  | none => []
  | some idv =>
      NotifierEv.publishB ("loan_status:" ++ idv.toStr) message ::
      (if dictGet message "status" = some (Value.str "approved") then
        match dictGet st.loans idv.toStr with
        | none => []
        | some loan_data =>
            let opted := dictGet loan_data "loan_type"
            let user_id := pyOr (dictGet loan_data "user_id") (dictGet loan_data "UserID")
            let name := dictGet loan_data "name"
            let address := dictGet loan_data "address"
            let loan_amount := dictGet loan_data "amount"
            if optTruthy opted && optTruthy user_id then
              [NotifierEv.adminPost
                [("user_id", pyOrV user_id Value.null),
                 ("opted", pyOrV opted Value.null),
                 ("name", pyOrV name (Value.str "")),
                 ("address", pyOrV address (Value.str "")),
                 ("loan_amount", pyOrV loan_amount (Value.num 0))]]
            else []
      else [])

example :
    handle_status_message ⟨[], [], []⟩ [("id", .str "c1"), ("status", .str "approved")]
      = [.publishB "loan_status:c1" [("id", .str "c1"), ("status", .str "approved")]] := by
  decide

/-! ## Submission Gateway (`loan-api/main.py`, `/submit`) -/

/-- The HTTP body `submit` returns: `{"id": loan_id}` on success,
`{"error": str(e)}` when `put_record` raises. -/
inductive SubmitBody where
  | idBody (id : String)
  | errBody (msg : String)
deriving DecidableEq, Repr

/-- An HTTP response as FastAPI produces it: returning a dict yields status
200 with that body; raising `HTTPException(code)` yields that error code. -/
structure HttpResponse where
  statusCode : Nat
  body : SubmitBody
deriving DecidableEq, Repr

/-- Everything `submit` did: the Redis state afterwards, the `put_record`
call (if it happened), and the HTTP response. -/
structure SubmitOutcome where
  store : Store
  published : Option PutEvent
  response : HttpResponse
deriving DecidableEq, Repr

/-- The dict `submit` builds from the form data (loan-api, lines 181–193):
`data["id"] = loan_id`; then, since the authenticated `user` dict is never
empty, `data["submitted_by"] = str(user["user_id"])` when that key is not
`None`; then `data["user_id"] = str(user_id)` when the form did not already
carry one. -/
def submitData (form : Msg) (user : Msg) (loan_id : String) : Msg :=
  let data := dictSet form "id" (Value.str loan_id)
  let data :=
    if user ≠ [] then
      match dictGet user "user_id" with
      | some v => if isNotNone (some v) then dictSet data "submitted_by" (Value.str v.toStr) else data
      | none => data
    else data
  let user_id := if user ≠ [] then dictGet user "user_id" else none
  match user_id with
  | some v =>
      if (dictGet data "user_id").isNone && isNotNone (some v) then
        dictSet data "user_id" (Value.str v.toStr)
      else data
  | none => data

/-- `submit` (loan-api, lines 179–205).  `loan_id` is the fresh
`str(uuid.uuid4())`; `cacheOk` is whether `redis.set(f"loan:{loan_id}", ...,
ex=86400)` succeeded (a failure is caught and only logged); `publishErr` is
`some e` when `put_record` raised `e` (caught; the handler then returns the
dict `{"error": str(e)}`, which FastAPI serves with status 200). -/
def submit (st : Store) (form : Msg) (user : Msg) (loan_id : String)
    (cacheOk : Bool) (publishErr : Option String) : SubmitOutcome :=
  let data := submitData form user loan_id
  let st' := if cacheOk then { st with loans := dictSet st.loans loan_id data } else st
  match publishErr with
  | some e =>
      { store := st', published := none,
        response := { statusCode := 200, body := SubmitBody.errBody e } }
  | none =>
      { store := st',
        published := some { stream := LOAN_SUBMITTED_STREAM, payload := data,
                            partitionKey := loan_id },
        response := { statusCode := 200, body := SubmitBody.idBody loan_id } }

/-! ## Session store and authentication (`loan-api/main.py`) -/

/-- The tail of `login` shared by both branches (loan-api, lines 221–227):
issue a fresh token, `redis.set(f"session:{token}", user_id, ex=3600)`, pop
the password from the returned dict and set its `user_id`.  The session
cookie carries the same token with the same max-age. -/
def finishLogin (st : Store) (user_obj : Msg) (user_id token : String) :
    Except Nat (Store × Msg) :=
  let st' := { st with sessions := dictSet st.sessions token ⟨user_id, 3600⟩ }
  Except.ok (st', dictSet (dictPop user_obj "password") "user_id" (Value.str user_id))

/-- `login` (loan-api, lines 208–227): when `user:{user_id}` exists its
`password` field must equal the supplied one exactly, else
`HTTPException(401)` is raised before any write; when it does not exist the
record `{"user_id": ..., "password": ...}` is created.  Either way a fresh
session is then issued.  `token` stands for the fresh `str(uuid.uuid4())`. -/
def login (st : Store) (user_id password token : String) :
    Except Nat (Store × Msg) :=
  match dictGet st.users user_id with
  | some user_obj =>
      if dictGet user_obj "password" ≠ some (Value.str password) then Except.error 401
      else finishLogin st user_obj user_id token
  | none =>
      let user_obj : Msg := [("user_id", Value.str user_id), ("password", Value.str password)]
      let st' := { st with users := dictSet st.users user_id user_obj }
      finishLogin st' user_obj user_id token

/-- `get_current_user` (loan-api, lines 159–172): 401 when the cookie is
missing or falsy, when `session:{token}` is absent (expired sessions are
deleted by Redis, hence absent) or falsy, or when `user:{user_id}` is
absent; otherwise the user dict with `password` popped and `user_id` set.
`/profile` (lines 175–177) returns this value unchanged. -/
def get_current_user (st : Store) (session_token : Option String) :
    Except Nat Msg :=
  match session_token with
  | none => Except.error 401
  | some tok =>
      if tok = "" then Except.error 401
      else
        match dictGet st.sessions tok with
        | none => Except.error 401
        | some srec =>
            if srec.user_id = "" then Except.error 401
            else
              match dictGet st.users srec.user_id with
              | none => Except.error 401
              | some user_obj =>
                  Except.ok (dictSet (dictPop user_obj "password") "user_id"
                    (Value.str srec.user_id))

/-! ## Admin dashboard (`admin-dashboard/main.py`) -/

/-- A row of the `loans` table.  `loan_amount` is a `Numeric(12, 2)` column;
its value never influences control flow, so it is carried as an abstract
`Int` produced by a parameterised parse of the form field. -/
structure Loan where
  user_id : Int
  name : String
  address : String
  loan_amount : Int
  opted : Option String
deriving DecidableEq, Repr

/-- The option whitelist `{"pay-mortgage", "refinance"}`. -/
def validOpts : List String := ["pay-mortgage", "refinance"]

/-- Update the `opted` column of the first row matching `user_id`
(the primary key is unique, so `.first()` sees at most one row). -/
def updateOpted : List Loan → Int → Option String → List Loan
  | [], _, _ => []
  | l :: rest, uid, o =>
      if l.user_id = uid then { l with opted := o } :: rest
      else l :: updateOpted rest uid o

/-- Python `name or default` on an optional form string (empty strings are
falsy). -/
def pyOrStr (a : Option String) (d : String) : String :=
  match a with
  | none => d
  | some s => if s = "" then d else s

/-- `set_opted` (admin-dashboard, lines 76–87), the `/opt/{user_id}`
endpoint: a disallowed option raises 400, an unknown `user_id` raises 404,
both before any write; on success the row's `opted` is set and a 303
redirect is returned.  The pair carries the table state after the call. -/
def set_opted (db : List Loan) (user_id : Int) (opted : String) :
    List Loan × Except Nat Nat :=
  if opted ∉ validOpts then (db, Except.error 400)
  else
    match db.find? (fun l => l.user_id == user_id) with
    | none => (db, Except.error 404)
    | some _ => (updateOpted db user_id (some opted), Except.ok 303)

/-- The JSON body `set_opted_by_id` returns: `{"updated": ..., "opted": ...}`. -/
structure OptByIdResp where
  updated : Int
  opted : Option String
deriving DecidableEq, Repr

/-- `set_opted_by_id` (admin-dashboard, lines 100–130), the `/opt-by-id`
webhook: a disallowed option raises 400; an unknown `user_id` does NOT
raise 404 — a new row is inserted with `float(loan_amount)` (`ValueError`
and a missing field both fall back to 0) and the defaulted name/address;
a known `user_id` has its `opted` updated.  `parseAmount` stands for the
partial `float(...)` conversion. -/
def set_opted_by_id (parseAmount : String → Option Int) (db : List Loan)
    (user_id : Int) (opted : String)
    (name address loan_amount : Option String) :
    List Loan × Except Nat OptByIdResp :=
  if opted ∉ validOpts then (db, Except.error 400)
  else
    match db.find? (fun l => l.user_id == user_id) with
    | none =>
        let amount_val :=
          match loan_amount with
          | none => 0
          | some s => (parseAmount s).getD 0
        let loan : Loan :=
          { user_id := user_id,
            name := pyOrStr name ("User " ++ toString user_id),
            address := pyOrStr address "Unknown",
            loan_amount := amount_val,
            opted := some opted }
        (db ++ [loan], Except.ok { updated := user_id, opted := some opted })
    | some _ =>
        (updateOpted db user_id (some opted),
         Except.ok { updated := user_id, opted := some opted })

/-! ## Association-list lemmas -/

lemma dictGet_dictSet_self {β : Type} (m : List (String × β)) (k : String) (v : β) :
    dictGet (dictSet m k v) k = some v := by
  induction m with
  | nil => simp [dictSet, dictGet]
  | cons p rest ih =>
      obtain ⟨k', v'⟩ := p
      by_cases h : k' = k <;> simp [dictSet, dictGet, h, ih]

lemma dictGet_dictSet_ne {β : Type} (m : List (String × β)) (k k' : String) (v : β)
    (h : k' ≠ k) : dictGet (dictSet m k' v) k = dictGet m k := by
  induction m with
  | nil => simp [dictSet, dictGet, h]
  | cons p rest ih =>
      obtain ⟨k₀, v₀⟩ := p
      by_cases h₀ : k₀ = k'
      · subst h₀; simp [dictSet, dictGet, h]
      · by_cases h₁ : k₀ = k <;> simp [dictSet, dictGet, h₀, h₁, Ne.symm h, ih]

lemma dictGet_dictPop_self {β : Type} (m : List (String × β)) (k : String) :
    dictGet (dictPop m k) k = none := by
  induction m with
  | nil => simp [dictPop, dictGet]
  | cons p rest ih =>
      obtain ⟨k', v'⟩ := p
      by_cases h : k' = k <;> simp [dictPop, dictGet, h, ih]

lemma dictGet_dictPop_ne {β : Type} (m : List (String × β)) (k k' : String)
    (h : k' ≠ k) : dictGet (dictPop m k') k = dictGet m k := by
  induction m with
  | nil => simp [dictPop, dictGet]
  | cons p rest ih =>
      obtain ⟨k₀, v₀⟩ := p
      by_cases h₀ : k₀ = k'
      · subst h₀; simp [dictPop, dictGet, h, Ne.symm h, ih]
      · by_cases h₁ : k₀ = k <;> simp [dictPop, dictGet, h₀, h₁, Ne.symm h, ih]

/-! ## Claim C1 -/

/-- A concrete poll environment: partition A's cursor fails with a
throughput-limit error while partition B's poll succeeds and delivers one
record. -/
def examplePollC1 : String → GetRecordsOutcome String := fun it =>
  if it = "shardA-cursor" then
    GetRecordsOutcome.clientError "ProvisionedThroughputExceededException"
  else if it = "shardB-cursor" then
    GetRecordsOutcome.ok [some "decisionB"] (some "shardB-cursor-next")
  else GetRecordsOutcome.ok [] none

/-- C1 is false as stated: when partition A's poll fails with a
throughput-limit error on cycle N while partition B stays healthy, the
cycle drops A's cursor from `next_iterators` entirely — the working set
for cycle N+1 is exactly `["shardB-cursor-next"]`, which is non-empty (so
no re-discovery runs) and does not contain A's stale cursor, so that
cursor is not retried on the next cycle and partition A stops being
consumed. -/
theorem c1_counterexample :
    loopStep ["fresh-cursor"] examplePollC1 ["shardA-cursor", "shardB-cursor"]
      = (["decisionB"], ["shardB-cursor-next"])
    ∧ "shardA-cursor" ∉
        (loopStep ["fresh-cursor"] examplePollC1 ["shardA-cursor", "shardB-cursor"]).2
    ∧ (loopStep ["fresh-cursor"] examplePollC1 ["shardA-cursor", "shardB-cursor"]).2 ≠ [] := by
  refine ⟨by decide, by decide, by decide⟩

/-- C1 amended: a partition whose poll fails with a throughput-limit or
cursor-expiry `ClientError` is skipped for the cycle — no handler call, no
cursor advance, no effect on the loop or the sibling partitions' polls —
but its cursor is dropped from the working set rather than retried next
cycle; only once the working set is empty does the loop sleep and
re-discover all partitions from the oldest retained position. -/
theorem c1_amended_skip_and_drop {μ : Type} (poll : String → GetRecordsOutcome μ)
    (pre post : List String) (it code : String)
    (h : poll it = GetRecordsOutcome.clientError code) :
    pollCycle poll (pre ++ it :: post) = pollCycle poll (pre ++ post)
    ∧ ∀ discover : List String, loopStep discover poll [] = ([], discover) := by
  constructor
  · induction pre with
    | nil => simp [pollCycle, pollShard, h]
    | cons x xs ih => simp [pollCycle, ih]
  · intro discover
    simp [loopStep]

/-- Witness for `c1_amended_skip_and_drop` at a concrete poll environment. -/
def examplePollC1b : String → GetRecordsOutcome String := fun it =>
  if it = "bad-cursor" then GetRecordsOutcome.clientError "ExpiredIteratorException"
  else GetRecordsOutcome.ok [] none

theorem c1_amended_witness :
    pollCycle examplePollC1b (["x"] ++ "bad-cursor" :: ["y"])
      = pollCycle examplePollC1b (["x"] ++ ["y"])
    ∧ ∀ discover : List String, loopStep discover examplePollC1b [] = ([], discover) :=
  c1_amended_skip_and_drop examplePollC1b ["x"] ["y"] "bad-cursor"
    "ExpiredIteratorException" (by decide)

/-! ## Claim C5 -/

/-- C5: on a successful poll of one partition whose records all decode
(`records = rs.map some`) and which supplies a next cursor, the loop body
emits exactly one handler invocation per record, in the order the records
were returned, followed by the advance to the supplied next cursor — the
handler calls all precede the cursor advance, giving strict in-order
delivery within the partition. -/
theorem c5_handler_order_then_advance {μ : Type}
    (poll : String → GetRecordsOutcome μ) (it n : String) (rs : List μ)
    (h : poll it = GetRecordsOutcome.ok (rs.map some) (some n)) :
    pollShard poll it = rs.map LoopEv.handle ++ [LoopEv.advance n] := by
  simp [pollShard, h, List.filterMap_map, Option.toList]

/-- Witness for `c5_handler_order_then_advance` on a two-record batch. -/
theorem c5_witness :
    pollShard (fun _ => GetRecordsOutcome.ok [some "m1", some "m2"] (some "next")) "it0"
      = [LoopEv.handle "m1", LoopEv.handle "m2", LoopEv.advance "next"] :=
  c5_handler_order_then_advance _ "it0" "next" ["m1", "m2"] rfl

/-! ## Claim C3 -/

/-- C3: for every submission-request event carrying a (truthy, string)
correlation ID, `auto_approve` produces exactly one decision-status event,
whose `id` equals that correlation ID and whose partition key is the same
ID; and since the policy is a pure function of the message, re-delivering
the same event twice (`consumeBatch [m, m]`) yields the same decision
status event both times. -/
theorem c3_exactly_once_deterministic (m : Msg) (v : Value)
    (h : dictGet m "id" = some v) (ht : v.truthy = true) :
    auto_approve m =
      [{ stream := LOAN_STATUS_STREAM,
         payload := [("id", v), ("status", Value.str "approved")],
         partitionKey := v.toStr }]
    ∧ consumeBatch [m, m] =
      [{ stream := LOAN_STATUS_STREAM,
         payload := [("id", v), ("status", Value.str "approved")],
         partitionKey := v.toStr },
       { stream := LOAN_STATUS_STREAM,
         payload := [("id", v), ("status", Value.str "approved")],
         partitionKey := v.toStr }] := by
  have h1 : auto_approve m =
      [{ stream := LOAN_STATUS_STREAM,
         payload := [("id", v), ("status", Value.str "approved")],
         partitionKey := v.toStr }] := by
    simp [auto_approve, h, ht]
  exact ⟨h1, by simp [consumeBatch, h1]⟩

/-- Witness for `c3_exactly_once_deterministic` at a concrete event. -/
theorem c3_witness :
    auto_approve [("id", Value.str "c1"), ("name", Value.str "A")] =
      [{ stream := LOAN_STATUS_STREAM,
         payload := [("id", Value.str "c1"), ("status", Value.str "approved")],
         partitionKey := "c1" }]
    ∧ consumeBatch [[("id", Value.str "c1"), ("name", Value.str "A")],
                    [("id", Value.str "c1"), ("name", Value.str "A")]] =
      [{ stream := LOAN_STATUS_STREAM,
         payload := [("id", Value.str "c1"), ("status", Value.str "approved")],
         partitionKey := "c1" },
       { stream := LOAN_STATUS_STREAM,
         payload := [("id", Value.str "c1"), ("status", Value.str "approved")],
         partitionKey := "c1" }] :=
  c3_exactly_once_deterministic _ (Value.str "c1") (by decide) (by decide)

/-! ## Claim C2 -/

/-- C2: for every decision-status event carrying an `"id"`, the fan-out
publish onto `loan_status:{id}` is the first action of
`handle_status_message`, for every cache state and whatever the enrichment
step does afterwards; and when the Submission Snapshot is absent from the
cache the trace is exactly that one publish — enrichment is skipped, no
error is raised. -/
theorem c2_fanout_unconditional (st : Store) (m : Msg) (idv : Value)
    (h : dictGet m "id" = some idv) :
    (handle_status_message st m).head? =
      some (NotifierEv.publishB ("loan_status:" ++ idv.toStr) m)
    ∧ (dictGet st.loans idv.toStr = none →
        handle_status_message st m =
          [NotifierEv.publishB ("loan_status:" ++ idv.toStr) m]) := by
  constructor
  · simp [handle_status_message, h]
  · intro hl
    by_cases hst : dictGet m "status" = some (Value.str "approved") <;>
      simp [handle_status_message, h, hl, hst]

/-- Witness for `c2_fanout_unconditional`: an approved decision whose
snapshot has expired from the cache still gets its fan-out publish. -/
theorem c2_witness :
    (handle_status_message ⟨[], [], []⟩
        [("id", Value.str "c1"), ("status", Value.str "approved")]).head? =
      some (NotifierEv.publishB "loan_status:c1"
        [("id", Value.str "c1"), ("status", Value.str "approved")])
    ∧ (dictGet (Store.loans ⟨[], [], []⟩) "c1" = none →
        handle_status_message ⟨[], [], []⟩
            [("id", Value.str "c1"), ("status", Value.str "approved")] =
          [NotifierEv.publishB "loan_status:c1"
            [("id", Value.str "c1"), ("status", Value.str "approved")]]) :=
  c2_fanout_unconditional ⟨[], [], []⟩
    [("id", Value.str "c1"), ("status", Value.str "approved")]
    (Value.str "c1") (by decide)

/-! ## Claim C4 -/

/-- C4: in `submit`, a failed snapshot-cache write is swallowed — the
submission-request event is still published (keyed by the fresh
correlation ID) and the correlation ID is still returned with status 200;
whereas a failed publish yields a body carrying the error message and no
correlation ID (the response body is never `idBody`), with no event
published. -/
theorem c4_submit_error_paths (st : Store) (form user : Msg)
    (loan_id e : String) (cacheOk : Bool) :
    ((submit st form user loan_id false none).response =
        { statusCode := 200, body := SubmitBody.idBody loan_id }
      ∧ (submit st form user loan_id false none).published =
          some { stream := LOAN_SUBMITTED_STREAM,
                 payload := submitData form user loan_id,
                 partitionKey := loan_id }
      ∧ (submit st form user loan_id false none).store = st)
    ∧ ((submit st form user loan_id cacheOk (some e)).response.body =
          SubmitBody.errBody e
      ∧ (submit st form user loan_id cacheOk (some e)).published = none
      ∧ ∀ i, (submit st form user loan_id cacheOk (some e)).response.body ≠
          SubmitBody.idBody i) := by
  refine ⟨⟨rfl, rfl, by simp [submit]⟩, by simp [submit], by simp [submit], ?_⟩
  intro i
  simp [submit]

/-! ## Claim C9 -/

/-- C9: `submit` is not atomic on publish failure — when the cache write
succeeded and `put_record` then raised `e`, the Submission Snapshot stays
in the cache under the fresh correlation ID (no rollback), and the failure
is served as a body `{"error": e}` under HTTP status 200, not an HTTP
error status. -/
theorem c9_submit_not_atomic (st : Store) (form user : Msg) (loan_id e : String) :
    (submit st form user loan_id true (some e)).store.loans =
      dictSet st.loans loan_id (submitData form user loan_id)
    ∧ dictGet (submit st form user loan_id true (some e)).store.loans loan_id =
        some (submitData form user loan_id)
    ∧ (submit st form user loan_id true (some e)).response =
        { statusCode := 200, body := SubmitBody.errBody e } := by
  refine ⟨by simp [submit], ?_, by simp [submit]⟩
  simp [submit, dictGet_dictSet_self]

/-! ## Claim C10 -/

/-- The later `submitted_by` / `user_id` assignments in `submit` never touch
the `"id"` binding, so the data dict always carries the fresh UUID under
`"id"`, whatever the form contained there. -/
lemma submitData_id (form user : Msg) (loan_id : String) :
    dictGet (submitData form user loan_id) "id" = some (Value.str loan_id) := by
  have hsb : ∀ (m : Msg) (w : Value),
      dictGet (dictSet m "submitted_by" w) "id" = dictGet m "id" :=
    fun m w => dictGet_dictSet_ne m "id" "submitted_by" w (by decide)
  have huid : ∀ (m : Msg) (w : Value),
      dictGet (dictSet m "user_id" w) "id" = dictGet m "id" :=
    fun m w => dictGet_dictSet_ne m "id" "user_id" w (by decide)
  unfold submitData
  repeat' split
  all_goals simp_all [hsb, huid, dictGet_dictSet_self]
  all_goals (split <;> simp_all [hsb, huid, dictGet_dictSet_self])

/-- C10: whatever the submitted form contained — in particular when it
already carries an `"id"` field with some client-supplied value — the
published submission-request event's `"id"`, its partition key, the cache
key of the Submission Snapshot and the correlation ID returned to the
caller are all the freshly generated UUID `loan_id`; a client-supplied
`"id"` can never become the correlation ID. -/
theorem c10_correlation_id_fresh (st : Store) (form user : Msg)
    (loan_id : String) (v : Value) (_h : dictGet form "id" = some v) :
    (∃ ev, (submit st form user loan_id true none).published = some ev
      ∧ dictGet ev.payload "id" = some (Value.str loan_id)
      ∧ ev.partitionKey = loan_id
      ∧ ev.stream = LOAN_SUBMITTED_STREAM)
    ∧ dictGet (submit st form user loan_id true none).store.loans loan_id =
        some (submitData form user loan_id)
    ∧ dictGet (submitData form user loan_id) "id" = some (Value.str loan_id)
    ∧ (submit st form user loan_id true none).response.body =
        SubmitBody.idBody loan_id := by
  refine ⟨⟨{ stream := LOAN_SUBMITTED_STREAM,
             payload := submitData form user loan_id,
             partitionKey := loan_id }, rfl, submitData_id form user loan_id, rfl, rfl⟩,
          ?_, submitData_id form user loan_id, rfl⟩
  simp [submit, dictGet_dictSet_self]

/-- Witness for `c10_correlation_id_fresh`: a form that tries to smuggle in
`"id": "attacker"` still yields the fresh UUID everywhere. -/
theorem c10_witness :
    (∃ ev, (submit ⟨[], [], []⟩ [("id", Value.str "attacker")]
        [("user_id", Value.str "u1")] "fresh-uuid" true none).published = some ev
      ∧ dictGet ev.payload "id" = some (Value.str "fresh-uuid")
      ∧ ev.partitionKey = "fresh-uuid"
      ∧ ev.stream = LOAN_SUBMITTED_STREAM)
    ∧ dictGet (submit ⟨[], [], []⟩ [("id", Value.str "attacker")]
        [("user_id", Value.str "u1")] "fresh-uuid" true none).store.loans "fresh-uuid" =
        some (submitData [("id", Value.str "attacker")]
          [("user_id", Value.str "u1")] "fresh-uuid")
    ∧ dictGet (submitData [("id", Value.str "attacker")]
        [("user_id", Value.str "u1")] "fresh-uuid") "id" =
        some (Value.str "fresh-uuid")
    ∧ (submit ⟨[], [], []⟩ [("id", Value.str "attacker")]
        [("user_id", Value.str "u1")] "fresh-uuid" true none).response.body =
        SubmitBody.idBody "fresh-uuid" :=
  c10_correlation_id_fresh ⟨[], [], []⟩ [("id", Value.str "attacker")]
    [("user_id", Value.str "u1")] "fresh-uuid" (Value.str "attacker") (by decide)

/-! ## Claim C6 -/

/-- C6: `login` with an existing user record whose `password` does not
exactly match the supplied credential fails with a 401 before any state is
written — no session is issued; `login` for an unknown `user_id` creates
the user record with the supplied credential and issues a fresh session
mapping the token to the `user_id` with the bounded 3600-second TTL,
returning the user view with the credential stripped. -/
theorem c6_login_auth (st : Store) (uid pw tok : String) :
    (∀ u, dictGet st.users uid = some u →
        dictGet u "password" ≠ some (Value.str pw) →
        login st uid pw tok = Except.error 401)
    ∧ (dictGet st.users uid = none →
        login st uid pw tok =
          Except.ok
            ({ st with
                users := dictSet st.users uid
                  [("user_id", Value.str uid), ("password", Value.str pw)],
                sessions := dictSet st.sessions tok ⟨uid, 3600⟩ },
             [("user_id", Value.str uid)])) := by
  constructor
  · intro u hu hp
    simp only [login, hu]
    rw [if_pos hp]
  · intro h
    simp [login, h, finishLogin, dictPop, dictSet]

/-- Witness for `c6_login_auth`, tracing the spec scenario: registering
`u1` with credential `p` succeeds and issues a session; a second login as
`u1` with credential `q` fails with 401. -/
theorem c6_witness :
    login ⟨[], [], []⟩ "u1" "p" "t1" =
      Except.ok
        (⟨[("u1", [("user_id", Value.str "u1"), ("password", Value.str "p")])],
          [("t1", ⟨"u1", 3600⟩)], []⟩,
         [("user_id", Value.str "u1")])
    ∧ login ⟨[("u1", [("user_id", Value.str "u1"), ("password", Value.str "p")])],
        [("t1", ⟨"u1", 3600⟩)], []⟩ "u1" "q" "t2" = Except.error 401 :=
  ⟨(c6_login_auth ⟨[], [], []⟩ "u1" "p" "t1").2 (by decide),
   (c6_login_auth _ "u1" "q" "t2").1
     [("user_id", Value.str "u1"), ("password", Value.str "p")]
     (by decide) (by decide)⟩

/-! ## Claim C7 -/

/-- C7: `get_current_user` (the authenticate step, also what `/profile`
returns verbatim) fails with 401 when the session cookie is absent, when
the session record is absent (expired Redis keys are absent), or when the
user record the session references is absent; otherwise it returns the
caller's user dict with the `password` field stripped and `user_id` set —
the credential is never present in the returned view. -/
theorem c7_authenticate (st : Store) :
    get_current_user st none = Except.error 401
    ∧ (∀ t, dictGet st.sessions t = none →
        get_current_user st (some t) = Except.error 401)
    ∧ (∀ t s, dictGet st.sessions t = some s →
        dictGet st.users s.user_id = none →
        get_current_user st (some t) = Except.error 401)
    ∧ (∀ t s u, t ≠ "" → dictGet st.sessions t = some s →
        s.user_id ≠ "" → dictGet st.users s.user_id = some u →
        ∃ v, get_current_user st (some t) = Except.ok v
          ∧ dictGet v "password" = none
          ∧ dictGet v "user_id" = some (Value.str s.user_id)) := by
  refine ⟨rfl, ?_, ?_, ?_⟩
  · intro t ht
    by_cases h0 : t = "" <;> simp [get_current_user, h0, ht]
  · intro t s hs hu
    by_cases h0 : t = ""
    · simp [get_current_user, h0]
    · by_cases h1 : s.user_id = "" <;> simp [get_current_user, h0, h1, hs, hu]
  · intro t s u h0 hs h1 hu
    refine ⟨dictSet (dictPop u "password") "user_id" (Value.str s.user_id), ?_, ?_, ?_⟩
    · simp [get_current_user, h0, h1, hs, hu]
    · rw [dictGet_dictSet_ne _ _ _ _ (by decide)]
      exact dictGet_dictPop_self u "password"
    · exact dictGet_dictSet_self _ _ _

/-- Witness for `c7_authenticate` on a one-user, one-session store. -/
theorem c7_witness :
    ∃ v, get_current_user
        ⟨[("u1", [("user_id", Value.str "u1"), ("password", Value.str "p")])],
         [("tok1", ⟨"u1", 3600⟩)], []⟩ (some "tok1") = Except.ok v
      ∧ dictGet v "password" = none
      ∧ dictGet v "user_id" = some (Value.str "u1") :=
  (c7_authenticate
      ⟨[("u1", [("user_id", Value.str "u1"), ("password", Value.str "p")])],
       [("tok1", ⟨"u1", 3600⟩)], []⟩).2.2.2
    "tok1" ⟨"u1", 3600⟩ [("user_id", Value.str "u1"), ("password", Value.str "p")]
    (by decide) (by decide) (by decide) (by decide)

/-! ## Claim C8 -/

/-- C8 is false as stated: on the `/opt-by-id` update path, an update whose
target user record does not exist is NOT surfaced as a not-found failure —
`set_opted_by_id` on an empty table with a valid option inserts a fresh row
and answers `{"updated": 1, "opted": "refinance"}`, changing the stored
state. -/
theorem c8_counterexample :
    set_opted_by_id (fun _ => none) [] 1 "refinance" none none none =
      ([{ user_id := 1, name := "User 1", address := "Unknown",
          loan_amount := 0, opted := some "refinance" }],
       Except.ok { updated := 1, opted := some "refinance" })
    ∧ (set_opted_by_id (fun _ => none) [] 1 "refinance" none none none).2 ≠
        Except.error 404
    ∧ (set_opted_by_id (fun _ => none) [] 1 "refinance" none none none).1 ≠ [] := by
  have heq : set_opted_by_id (fun _ => none) [] 1 "refinance" none none none =
      ([{ user_id := 1, name := "User 1", address := "Unknown",
          loan_amount := 0, opted := some "refinance" }],
       Except.ok { updated := 1, opted := some "refinance" }) := rfl
  refine ⟨heq, ?_, ?_⟩
  · rw [heq]; simp
  · rw [heq]; simp

/-- C8 amended: a disallowed option is surfaced as a bad-request (400)
failure with the stored state unchanged on both update endpoints; an
update of a non-existent target is surfaced as a not-found (404) failure
with the state unchanged on the path-parameter endpoint `/opt/{user_id}`
(`set_opted`), while the webhook endpoint `/opt-by-id` (`set_opted_by_id`)
instead creates a new record carrying the requested option. -/
theorem c8_amended_admin_errors (p : String → Option Int) (db : List Loan)
    (uid : Int) (o : String) (name addr la : Option String) :
    (o ∉ validOpts →
        set_opted db uid o = (db, Except.error 400)
        ∧ set_opted_by_id p db uid o name addr la = (db, Except.error 400))
    ∧ (o ∈ validOpts → db.find? (fun l => l.user_id == uid) = none →
        set_opted db uid o = (db, Except.error 404))
    ∧ (o ∈ validOpts → db.find? (fun l => l.user_id == uid) = none →
        ∃ loan, set_opted_by_id p db uid o name addr la =
            (db ++ [loan], Except.ok { updated := uid, opted := some o })
          ∧ loan.user_id = uid ∧ loan.opted = some o) := by
  refine ⟨?_, ?_, ?_⟩
  · intro h
    constructor
    · simp only [set_opted]; rw [if_pos h]
    · simp only [set_opted_by_id]; rw [if_pos h]
  · intro h hf
    simp only [set_opted]
    rw [if_neg (not_not_intro h), hf]
  · intro h hf
    refine ⟨{ user_id := uid,
              name := pyOrStr name ("User " ++ toString uid),
              address := pyOrStr addr "Unknown",
              loan_amount := (match la with
                | none => 0
                | some s => (p s).getD 0),
              opted := some o }, ?_, rfl, rfl⟩
    simp only [set_opted_by_id]
    rw [if_neg (not_not_intro h), hf]

/-- The first seeded row of the admin `loans` table (`seed_data`). -/
def seedLoan : Loan :=
  { user_id := 1, name := "Alex Johnson", address := "123 Maple St",
    loan_amount := 250000, opted := none }

/-- Witness for `c8_amended_admin_errors`: the 400 path and the 404 path on
a concrete one-row table, and the upsert path on an empty table. -/
theorem c8_amended_witness :
    set_opted [seedLoan] 1 "car-loan" = ([seedLoan], Except.error 400)
    ∧ set_opted [seedLoan] 2 "refinance" = ([seedLoan], Except.error 404)
    ∧ ∃ loan, set_opted_by_id (fun _ => none) [] 3 "pay-mortgage" none none none =
        ([] ++ [loan], Except.ok { updated := 3, opted := some "pay-mortgage" })
      ∧ loan.user_id = 3 ∧ loan.opted = some "pay-mortgage" :=
  ⟨((c8_amended_admin_errors (fun _ => none) [seedLoan] 1 "car-loan"
      none none none).1 (by decide)).1,
   (c8_amended_admin_errors (fun _ => none) [seedLoan] 2 "refinance"
      none none none).2.1 (by decide) (by decide),
   (c8_amended_admin_errors (fun _ => none) [] 3 "pay-mortgage"
      none none none).2.2 (by decide) (by decide)⟩
